import Mathlib

/-!
Verification of the poll-until-complete routine and the credentialed client
factory of the aws-account-management repository.

The poller embeds `block_until_complete` from `src/core/utils/__init__.py`
(lines 16-50).  Time is modelled by rationals: `dur k` is the wall-clock time
consumed by the `k`-th invocation of the task (plus its logging), `sleep` is the
`time.sleep` duration, and the loop is indexed by the number of completed
invocations.  The elapsed clock at the check following invocation `k` is
`dur 0 + ... + dur k + k * sleep`, which the embedding threads through the loop
as an accumulator.  The loop is driven by fuel; `none` models nontermination
(the real loop diverges when the condition stays true, the timeout check never
fires and the clock never advances past the deadline).

The factory embeds `AWSClientFactory` from
`src/core/authentication/aws_client_factory.py`.
-/

/-- Outcome of `block_until_complete`: either the final response (returned once
the condition becomes false) or the `TimeoutError` raised at the deadline check
(`raise TimeoutError("Operation timed out.")`, line 45).  As in the source, the
error carries only its fixed message string. -/
inductive PollOutcome (R : Type) where
  | ok (r : R)
  | timeoutErr (msg : String)
  deriving DecidableEq

/-- Observable footprint of one run of `block_until_complete`: its outcome, the
number of invocations of `task`, the number of `time.sleep` calls, and the
elapsed wall-clock time when the run ended. -/
structure PollRun (R : Type) where
  outcome : PollOutcome R
  invocations : Nat
  sleeps : Nat
  elapsed : ℚ
  deriving DecidableEq

/-- Embeds the `while condition(response)` loop of `block_until_complete`
(lines 43-50).  `results k` is the response of the `k`-th invocation of
`task(*args, **kwargs)`, `t` is the elapsed wall clock just after invocation
`k`, i.e. what `time.time() - start_time` evaluates to at the checks of
iteration `k`.  Branches, in source order: exit the loop when the condition is
false; raise `TimeoutError` when `time.time() - start_time > timeout` (strict);
otherwise sleep and re-invoke. -/
def pollLoop {R : Type} (results : Nat → R) (cond : R → Bool) (dur : Nat → ℚ)
    (sleep timeout : ℚ) : Nat → ℚ → Nat → Option (PollRun R)
  | _, _, 0 => none
  | k, t, fuel + 1 =>
    if cond (results k) = false then
      some ⟨PollOutcome.ok (results k), k + 1, k, t⟩
    else if timeout < t then
      some ⟨PollOutcome.timeoutErr "Operation timed out.", k + 1, k, t⟩
    else
      pollLoop results cond dur sleep timeout (k + 1) (t + sleep + dur (k + 1)) fuel

/-- Embeds `block_until_complete` (lines 37-50): record the start time, perform
the first invocation unconditionally (elapsed `dur 0` when it returns), then
enter the loop. -/
def blockUntilComplete {R : Type} (results : Nat → R) (cond : R → Bool) (dur : Nat → ℚ)
    (sleep timeout : ℚ) (fuel : Nat) : Option (PollRun R) :=
  pollLoop results cond dur sleep timeout 0 (dur 0) fuel

/-- Outcome of `block_until_complete` when the task itself may raise: a raised
exception propagates out of the loop (no `try`/`except` anywhere in the
source), in addition to the two outcomes of `PollOutcome`. -/
inductive PollOutcomeE (E R : Type) where
  | ok (r : R)
  | timeoutErr (msg : String)
  | raised (e : E)
  deriving DecidableEq

/-- Observable footprint of a run of `block_until_complete` with a fallible
task. -/
structure PollRunE (E R : Type) where
  outcome : PollOutcomeE E R
  invocations : Nat
  sleeps : Nat
  elapsed : ℚ
  deriving DecidableEq

/-- Embeds the loop of `block_until_complete` for a task whose invocations may
raise: `results k` is either the response or the exception raised by the `k`-th
invocation of `task(*args, **kwargs)`.  The source wraps no invocation in a
handler, so an exception ends the run at once; the remaining branches are as in
`pollLoop`. -/
def pollLoopE {E R : Type} (results : Nat → Except E R) (cond : R → Bool) (dur : Nat → ℚ)
    (sleep timeout : ℚ) : Nat → ℚ → Nat → Option (PollRunE E R)
  | _, _, 0 => none
  | k, t, fuel + 1 =>
    match results k with
    | Except.error e => some ⟨PollOutcomeE.raised e, k + 1, k, t⟩
    | Except.ok r =>
      if cond r = false then
        some ⟨PollOutcomeE.ok r, k + 1, k, t⟩
      else if timeout < t then
        some ⟨PollOutcomeE.timeoutErr "Operation timed out.", k + 1, k, t⟩
      else
        pollLoopE results cond dur sleep timeout (k + 1) (t + sleep + dur (k + 1)) fuel

/-- Embeds `block_until_complete` for a fallible task (first invocation
unconditional, then the loop). -/
def blockUntilCompleteE {E R : Type} (results : Nat → Except E R) (cond : R → Bool)
    (dur : Nat → ℚ) (sleep timeout : ℚ) (fuel : Nat) : Option (PollRunE E R) :=
  pollLoopE results cond dur sleep timeout 0 (dur 0) fuel

/-- Temporary credentials as returned by `AWSClientFactory.__get_sts_credentials`
(aws_client_factory.py lines 126-150): the three fields are all absent (the
ambient sentinel) or all present. -/
structure Creds where
  accessKeyId : Option String
  secretAccessKey : Option String
  sessionToken : Option String
  deriving DecidableEq

/-- A constructed boto3 client, as observable through the factory: the derived
service name, the credentials and region it was built with, and a unique id
standing for Python object identity (each `boto3.client(...)` call yields a
fresh object). -/
structure AwsClient where
  serviceName : String
  creds : Creds
  region : String
  uid : Nat
  deriving DecidableEq

/-- Mutable state of `AWSClientFactory` plus the instrumentation the claims
speak about: the class-level `clients` dictionary (assoc list, most recent
binding first), the number of `sts_client.assume_role` network calls made so
far, and the uid for the next constructed client. -/
structure FactoryState where
  clients : List (String × AwsClient)
  assumeRoleCalls : Nat
  nextUid : Nat
  deriving DecidableEq

/-- Python `dict` lookup on the assoc-list model: the most recent binding of a
key wins. -/
def dictGet (m : List (String × AwsClient)) (key : String) : Option AwsClient :=
  (m.find? fun p => p.1 == key).map fun p => p.2

/-- Python `dict` assignment on the assoc-list model: prepend, so the new
binding shadows any older one. -/
def dictSet (m : List (String × AwsClient)) (key : String) (c : AwsClient) :
    List (String × AwsClient) :=
  (key, c) :: m

/-- Literal `"mypy_boto3_"`, the fixed text before the capture group of
`ClientNamePattern = re.compile(r"mypy_boto3_(.*?)\.client")` (line 18). -/
def clientNamePre : List Char := "mypy_boto3_".toList

/-- Literal `".client"`, the fixed text after the capture group of
`ClientNamePattern`. -/
def clientNameSep : List Char := ".client".toList

/-- Embeds the lazy capture group `(.*?)` followed by the literal `\.client`:
at each position, first try to read `".client"`; otherwise consume one
character into the group (`.` matches anything but a newline) and continue.
Returns the captured group, or `none` when the regex cannot match. -/
def lazyGroup : List Char → Option (List Char)
  | [] => none
  | c :: cs =>
    if List.isPrefixOf clientNameSep (c :: cs) then some []
    else if c = '\n' then none
    else (lazyGroup cs).map fun g => c :: g

/-- Embeds `ClientNamePattern.match(module)` (anchored at the start of the
string, as `re.match` is): require the literal `"mypy_boto3_"` up front, then
run the lazy group.  Returns the text of capture group 1
(`ClientNamePatternMatchGroup`), or `none` when the pattern does not match. -/
def matchClientName (moduleName : String) : Option String :=
  if List.isPrefixOf clientNamePre moduleName.toList then
    (lazyGroup (moduleName.toList.drop clientNamePre.length)).map fun g => String.mk g
  else none

/-- Embeds `str.replace("_", "-")` for the single-character pattern used on the
captured service name (line 123). -/
def underscoreToHyphen (s : String) : String :=
  String.mk (s.toList.map fun c => if c = '_' then '-' else c)

/-- Embeds `AWSClientFactory.__client_type_to_service_name` (lines 109-124):
match the client class's `__module__` against `ClientNamePattern`, take group
1 and replace underscores with hyphens.  `none` models the `AttributeError`
raised by `.group` on a failed (`None`) match. -/
def clientTypeToServiceName (moduleName : String) : Option String :=
  (matchClientName moduleName).map underscoreToHyphen

/-- Embeds `AWSClientFactory.__get_sts_credentials` (lines 126-150): with no
role ARN, return the all-`None` sentinel without any network call; with a role
ARN, perform one `sts_client.assume_role` call (counted in the state) whose
returned credential strings model the external STS collaborator
deterministically. -/
def getStsCredentials (roleArn : Option String) (s : FactoryState) : Creds × FactoryState :=
  match roleArn with
  | none => (⟨none, none, none⟩, s)
  | some arn =>
    (⟨some ("AK-" ++ arn), some ("SK-" ++ arn), some ("ST-" ++ arn)⟩,
      ⟨s.clients, s.assumeRoleCalls + 1, s.nextUid⟩)

/-- The cache key `f"{client_class.__name__}_{role_arn}"` (lines 76 and 105);
Python formats the absent role as the text `"None"`. -/
def clientKey (className : String) (roleArn : Option String) : String :=
  className ++ "_" ++ (match roleArn with | none => "None" | some arn => arn)

/-- Embeds `AWSClientFactory.__create_aws_client` (lines 80-107): obtain
session credentials (the STS call happens first, before the service name is
derived), build the client — deriving the service name; a failed match raises
`AttributeError` here — store it in the class-level `clients` dict under the
cache key, and return it. -/
def createAwsClient (className moduleName region : String) (roleArn : Option String)
    (s : FactoryState) : Except String (AwsClient × FactoryState) :=
  let sc := getStsCredentials roleArn s
  match clientTypeToServiceName moduleName with
  | none => Except.error "AttributeError"
  | some svc =>
    Except.ok (⟨svc, sc.1, region, sc.2.nextUid⟩,
      ⟨dictSet sc.2.clients (clientKey className roleArn) ⟨svc, sc.1, region, sc.2.nextUid⟩,
        sc.2.assumeRoleCalls, sc.2.nextUid + 1⟩)

/-- Embeds `AWSClientFactory.get` (lines 54-78), which evaluates
`cls.clients.get(key, cls.__create_aws_client(...))`.  Python evaluates the
second argument of `dict.get` eagerly, so `__create_aws_client` runs on every
call — before the dictionary is consulted — and only then is the key looked up
(finding the binding `__create_aws_client` just wrote).  The client class is
represented by its `__name__` and `__module__` strings. -/
def AWSClientFactory.get (className moduleName region : String) (roleArn : Option String)
    (s : FactoryState) : Except String (AwsClient × FactoryState) :=
  match createAwsClient className moduleName region roleArn s with
  | Except.error e => Except.error e
  | Except.ok (newClient, s1) =>
    Except.ok ((dictGet s1.clients (clientKey className roleArn)).getD newClient, s1)

/-- Embeds the default value of `get`'s `region` parameter,
`region: str = os.environ["AWS_REGION"]` (line 60).  Python evaluates default
expressions once, when the `def` in the class body executes at import time, so
an absent `AWS_REGION` raises `KeyError` before any call can be made. -/
def classDefaultRegion (env : Option String) : Except String String :=
  match env with
  | none => Except.error "KeyError: AWS_REGION"
  | some r => Except.ok r

/-- The region a call to `AWSClientFactory.get` effectively uses, as a function
of the ambient `AWS_REGION` environment value and the caller's explicit
argument: the class definition must first have succeeded (evaluating the
default), then an explicit argument overrides the default. -/
def resolveCallRegion (env explicitRegion : Option String) : Except String String :=
  match classDefaultRegion env with
  | Except.error e => Except.error e
  | Except.ok d => Except.ok (explicitRegion.getD d)

/-- A call to `AWSClientFactory.get` including region resolution against the
ambient environment. -/
def getWithEnv (env explicitRegion : Option String) (className moduleName : String)
    (roleArn : Option String) (s : FactoryState) : Except String (AwsClient × FactoryState) :=
  match resolveCallRegion env explicitRegion with
  | Except.error e => Except.error e
  | Except.ok region => AWSClientFactory.get className moduleName region roleArn s

theorem pollLoop_ok_sound {R : Type} (results : Nat → R) (cond : R → Bool) (dur : Nat → ℚ)
    (sleep timeout : ℚ) :
    ∀ (fuel k : Nat) (t : ℚ) (run : PollRun R) (r : R),
      pollLoop results cond dur sleep timeout k t fuel = some run →
      run.outcome = PollOutcome.ok r → cond r = false ∧ ∃ j, r = results j := by
  intro fuel
  induction fuel with
  | zero => intro k t run r h; simp [pollLoop] at h
  | succ n ih =>
    intro k t run r h hout
    rw [pollLoop] at h
    by_cases hc : cond (results k) = false
    · rw [if_pos hc] at h
      obtain rfl : (⟨PollOutcome.ok (results k), k + 1, k, t⟩ : PollRun R) = run :=
        Option.some.inj h
      obtain rfl : results k = r := by simpa using hout
      exact ⟨hc, k, rfl⟩
    · rw [if_neg hc] at h
      by_cases ht : timeout < t
      · rw [if_pos ht] at h
        obtain rfl : (⟨PollOutcome.timeoutErr "Operation timed out.", k + 1, k, t⟩ : PollRun R)
            = run := Option.some.inj h
        simp at hout
      · rw [if_neg ht] at h
        exact ih (k + 1) (t + sleep + dur (k + 1)) run r h hout

theorem pollLoop_true_terminates {R : Type} (results : Nat → R) (cond : R → Bool)
    (dur : Nat → ℚ) (sleep timeout : ℚ) (hc : ∀ j, cond (results j) = true)
    (hd : ∀ j, 0 ≤ dur j) :
    ∀ (fuel k : Nat) (t : ℚ), timeout < t + fuel * sleep →
      ∃ run, pollLoop results cond dur sleep timeout k t (fuel + 1) = some run ∧
        run.outcome = PollOutcome.timeoutErr "Operation timed out." := by
  intro fuel
  induction fuel with
  | zero =>
    intro k t hlt
    refine ⟨⟨PollOutcome.timeoutErr "Operation timed out.", k + 1, k, t⟩, ?_, rfl⟩
    rw [pollLoop, if_neg (by simp [hc k]), if_pos (by simpa using hlt)]
  | succ n ih =>
    intro k t hlt
    by_cases ht : timeout < t
    · refine ⟨⟨PollOutcome.timeoutErr "Operation timed out.", k + 1, k, t⟩, ?_, rfl⟩
      rw [pollLoop, if_neg (by simp [hc k]), if_pos ht]
    · obtain ⟨run, hrun, hout⟩ := ih (k + 1) (t + sleep + dur (k + 1)) (by
        have h1 : 0 ≤ dur (k + 1) := hd (k + 1)
        push_cast at hlt ⊢
        nlinarith)
      refine ⟨run, ?_, hout⟩
      rw [pollLoop, if_neg (by simp [hc k]), if_neg ht]
      exact hrun

theorem pollLoop_true_timeout_bound {R : Type} (results : Nat → R) (cond : R → Bool)
    (sleep timeout : ℚ) (hc : ∀ j, cond (results j) = true) :
    ∀ (fuel k : Nat), (k : ℚ) * sleep ≤ timeout + sleep →
      timeout < (k : ℚ) * sleep + fuel * sleep →
      ∃ run, pollLoop results cond (fun _ => 0) sleep timeout k ((k : ℚ) * sleep) (fuel + 1)
          = some run ∧
        run.outcome = PollOutcome.timeoutErr "Operation timed out." ∧
        timeout < run.elapsed ∧ run.elapsed ≤ timeout + sleep := by
  intro fuel
  induction fuel with
  | zero =>
    intro k hub hlt
    rw [Nat.cast_zero, zero_mul, add_zero] at hlt
    refine ⟨⟨PollOutcome.timeoutErr "Operation timed out.", k + 1, k, (k : ℚ) * sleep⟩,
      ?_, rfl, hlt, hub⟩
    rw [pollLoop, if_neg (by simp [hc k]), if_pos hlt]
  | succ n ih =>
    intro k hub hlt
    by_cases ht : timeout < (k : ℚ) * sleep
    · refine ⟨⟨PollOutcome.timeoutErr "Operation timed out.", k + 1, k, (k : ℚ) * sleep⟩,
        ?_, rfl, ht, hub⟩
      rw [pollLoop, if_neg (by simp [hc k]), if_pos ht]
    · push_neg at ht
      obtain ⟨run, hrun, hout⟩ := ih (k + 1)
        (by push_cast; nlinarith)
        (by push_cast at hlt ⊢; nlinarith)
      refine ⟨run, ?_, hout⟩
      rw [pollLoop, if_neg (by simp [hc k]), if_neg (by push_neg; exact ht)]
      have harg : (k : ℚ) * sleep + sleep + 0 = ((k + 1 : Nat) : ℚ) * sleep := by
        push_cast; ring
      rw [← harg] at hrun
      exact hrun

theorem pollLoopE_raised_sound {E R : Type} (results : Nat → Except E R) (cond : R → Bool)
    (dur : Nat → ℚ) (sleep timeout : ℚ) :
    ∀ (fuel k : Nat) (t : ℚ) (run : PollRunE E R) (e : E),
      pollLoopE results cond dur sleep timeout k t fuel = some run →
      run.outcome = PollOutcomeE.raised e →
      ∃ j, results j = Except.error e ∧ run.invocations = j + 1 := by
  intro fuel
  induction fuel with
  | zero => intro k t run e h; simp [pollLoopE] at h
  | succ n ih =>
    intro k t run e h hout
    rw [pollLoopE] at h
    split at h
    next e' hres =>
      obtain rfl : (⟨PollOutcomeE.raised e', k + 1, k, t⟩ : PollRunE E R) = run :=
        Option.some.inj h
      obtain rfl : e' = e := by simpa using hout
      exact ⟨k, hres, rfl⟩
    next r hres =>
      by_cases hcr : cond r = false
      · rw [if_pos hcr] at h
        obtain rfl : (⟨PollOutcomeE.ok r, k + 1, k, t⟩ : PollRunE E R) = run :=
          Option.some.inj h
        simp at hout
      · rw [if_neg hcr] at h
        by_cases ht : timeout < t
        · rw [if_pos ht] at h
          obtain rfl : (⟨PollOutcomeE.timeoutErr "Operation timed out.", k + 1, k, t⟩ :
              PollRunE E R) = run := Option.some.inj h
          simp at hout
        · rw [if_neg ht] at h
          exact ih (k + 1) (t + sleep + dur (k + 1)) run e h hout

theorem pollLoopE_timeout_msg {E R : Type} (results : Nat → Except E R) (cond : R → Bool)
    (dur : Nat → ℚ) (sleep timeout : ℚ) :
    ∀ (fuel k : Nat) (t : ℚ) (run : PollRunE E R) (msg : String),
      pollLoopE results cond dur sleep timeout k t fuel = some run →
      run.outcome = PollOutcomeE.timeoutErr msg → msg = "Operation timed out." := by
  intro fuel
  induction fuel with
  | zero => intro k t run msg h; simp [pollLoopE] at h
  | succ n ih =>
    intro k t run msg h hout
    rw [pollLoopE] at h
    split at h
    next e' hres =>
      obtain rfl : (⟨PollOutcomeE.raised e', k + 1, k, t⟩ : PollRunE E R) = run :=
        Option.some.inj h
      simp at hout
    next r hres =>
      by_cases hcr : cond r = false
      · rw [if_pos hcr] at h
        obtain rfl : (⟨PollOutcomeE.ok r, k + 1, k, t⟩ : PollRunE E R) = run :=
          Option.some.inj h
        simp at hout
      · rw [if_neg hcr] at h
        by_cases ht : timeout < t
        · rw [if_pos ht] at h
          obtain rfl : (⟨PollOutcomeE.timeoutErr "Operation timed out.", k + 1, k, t⟩ :
              PollRunE E R) = run := Option.some.inj h
          simpa using hout.symm
        · rw [if_neg ht] at h
          exact ih (k + 1) (t + sleep + dur (k + 1)) run msg h hout

theorem isPrefixOf_exists : ∀ (l₁ l₂ : List Char), List.isPrefixOf l₁ l₂ = true →
    ∃ t, l₂ = l₁ ++ t
  | [], l₂, _ => ⟨l₂, rfl⟩
  | a :: as, [], h => by simp [List.isPrefixOf] at h
  | a :: as, b :: bs, h => by
    simp only [List.isPrefixOf, Bool.and_eq_true, beq_iff_eq] at h
    obtain ⟨rfl, h2⟩ := h
    obtain ⟨t, rfl⟩ := isPrefixOf_exists as bs h2
    exact ⟨t, rfl⟩

theorem lazyGroup_sound : ∀ (l g : List Char), lazyGroup l = some g →
    ∃ rest, l = g ++ clientNameSep ++ rest
  | [], g, h => by simp [lazyGroup] at h
  | c :: cs, g, h => by
    rw [lazyGroup] at h
    by_cases hp : List.isPrefixOf clientNameSep (c :: cs) = true
    · rw [if_pos hp] at h
      obtain rfl : ([] : List Char) = g := Option.some.inj h
      obtain ⟨t, ht⟩ := isPrefixOf_exists _ _ hp
      exact ⟨t, by simpa using ht⟩
    · rw [if_neg hp] at h
      by_cases hn : c = '\n'
      · rw [if_pos hn] at h; simp at h
      · rw [if_neg hn] at h
        obtain ⟨g', hg', rfl⟩ : ∃ g', lazyGroup cs = some g' ∧ c :: g' = g := by
          cases hlg : lazyGroup cs with
          | none => rw [hlg] at h; simp at h
          | some g' => rw [hlg] at h; exact ⟨g', rfl, Option.some.inj h⟩
        obtain ⟨rest, rfl⟩ := lazyGroup_sound cs g' hg'
        exact ⟨rest, by simp⟩

theorem matchClientName_sound (moduleName : String) (g : String)
    (h : matchClientName moduleName = some g) :
    ∃ rest, moduleName.toList = clientNamePre ++ g.toList ++ clientNameSep ++ rest := by
  rw [matchClientName] at h
  by_cases hp : List.isPrefixOf clientNamePre moduleName.toList = true
  · rw [if_pos hp] at h
    obtain ⟨gl, hgl, rfl⟩ : ∃ gl, lazyGroup (moduleName.toList.drop clientNamePre.length)
        = some gl ∧ String.mk gl = g := by
      cases hlg : lazyGroup (moduleName.toList.drop clientNamePre.length) with
      | none => rw [hlg] at h; simp at h
      | some gl => rw [hlg] at h; exact ⟨gl, rfl, Option.some.inj h⟩
    obtain ⟨t, ht⟩ := isPrefixOf_exists _ _ hp
    have hdrop : moduleName.toList.drop clientNamePre.length = t := by
      rw [ht]; exact List.drop_left _ _
    rw [hdrop] at hgl
    obtain ⟨rest, hrest⟩ := lazyGroup_sound t gl hgl
    refine ⟨rest, ?_⟩
    rw [ht, hrest]
    simp [String.toList, List.append_assoc]
  · rw [if_neg hp] at h; simp at h

theorem get_error_of_none (className moduleName region : String) (roleArn : Option String)
    (s : FactoryState) (h : clientTypeToServiceName moduleName = none) :
    AWSClientFactory.get className moduleName region roleArn s
      = Except.error "AttributeError" := by
  simp [AWSClientFactory.get, createAwsClient, h]

theorem get_eq_of_some (className moduleName region : String) (roleArn : Option String)
    (s : FactoryState) (svc : String) (h : clientTypeToServiceName moduleName = some svc) :
    AWSClientFactory.get className moduleName region roleArn s =
      Except.ok
        (⟨svc, (getStsCredentials roleArn s).1, region,
            (getStsCredentials roleArn s).2.nextUid⟩,
          ⟨dictSet (getStsCredentials roleArn s).2.clients (clientKey className roleArn)
              ⟨svc, (getStsCredentials roleArn s).1, region,
                (getStsCredentials roleArn s).2.nextUid⟩,
            (getStsCredentials roleArn s).2.assumeRoleCalls,
            (getStsCredentials roleArn s).2.nextUid + 1⟩) := by
  simp [AWSClientFactory.get, createAwsClient, h, dictGet, dictSet]

/-- C1: the claim says two identical `AWSClientFactory.get` calls return the same
cached client instance, trigger at most one role-assumption call, and never
recreate the handle for an identity key.  Evaluating the embedding at the
failing input shows the code does the opposite: `dict.get(key, default)`
evaluates its default eagerly, so the second identical call performs a second
`assume_role` call (the count goes 1, then 2) and returns a freshly constructed
client (uid 1) instead of the cached one (uid 0), overwriting the cached
handle. -/
theorem claim_C1_eval :
    (AWSClientFactory.get "SSOAdminClient" "mypy_boto3_sso_admin.client" "eu-west-1"
        (some "arn:aws:iam::111111111111:role/X") ⟨[], 0, 0⟩).map
        (fun p => (p.1.uid, p.2.assumeRoleCalls)) = Except.ok (0, 1) ∧
    ((AWSClientFactory.get "SSOAdminClient" "mypy_boto3_sso_admin.client" "eu-west-1"
        (some "arn:aws:iam::111111111111:role/X") ⟨[], 0, 0⟩).bind fun p =>
      AWSClientFactory.get "SSOAdminClient" "mypy_boto3_sso_admin.client" "eu-west-1"
        (some "arn:aws:iam::111111111111:role/X") p.2).map
        (fun p => (p.1.uid, p.2.assumeRoleCalls)) = Except.ok (1, 2) := by
  simp [AWSClientFactory.get, createAwsClient, clientTypeToServiceName, matchClientName,
    lazyGroup, clientNamePre, clientNameSep, getStsCredentials, dictGet, dictSet, clientKey,
    underscoreToHyphen, Except.map, Except.bind]

/-- C2, counterexample: the claim says the timeout failure carries the last
observed result.  Two runs over operations whose every result differs (constant
0 versus constant 1) produce byte-identical outcomes, so the timeout error
cannot carry the last observed result; it is the fixed message
`"Operation timed out."`. -/
theorem claim_C2_counterexample :
    blockUntilComplete (fun _ => (0 : Nat)) (fun _ => true) (fun _ => (0 : ℚ)) 1 0 5 =
        blockUntilComplete (fun _ => (1 : Nat)) (fun _ => true) (fun _ => (0 : ℚ)) 1 0 5 ∧
    blockUntilComplete (fun _ => (0 : Nat)) (fun _ => true) (fun _ => (0 : ℚ)) 1 0 5 =
        some ⟨PollOutcome.timeoutErr "Operation timed out.", 2, 1, 1⟩ := by
  norm_num [blockUntilComplete, pollLoop]

/-- C2, amended: when the deadline has elapsed (elapsed time strictly exceeds
the timeout) while the predicate is still true, the poller fails with the
timeout error — which carries only the fixed message `"Operation timed out."`,
not the last observed result.  First conjunct: at any loop iteration with the
condition true and the deadline passed, the loop raises immediately.  Second
conjunct: with a predicate that is always true, a positive interval and
non-negative invocation durations, the poll terminates in the timeout
failure. -/
theorem claim_C2_amended {R : Type} (results : Nat → R) (cond : R → Bool) (dur : Nat → ℚ)
    (sleep timeout : ℚ) :
    (∀ (k fuel : Nat) (t : ℚ), cond (results k) = true → timeout < t →
        pollLoop results cond dur sleep timeout k t (fuel + 1) =
          some ⟨PollOutcome.timeoutErr "Operation timed out.", k + 1, k, t⟩) ∧
    ((∀ j, cond (results j) = true) → 0 < sleep → (∀ j, 0 ≤ dur j) →
        ∃ fuel run, blockUntilComplete results cond dur sleep timeout fuel = some run ∧
          run.outcome = PollOutcome.timeoutErr "Operation timed out.") := by
  constructor
  · intro k fuel t hk ht
    rw [pollLoop, if_neg (by simp [hk]), if_pos ht]
  · intro hc hs hd
    obtain ⟨n, hn⟩ := exists_nat_gt ((timeout - dur 0) / sleep)
    have hlt : timeout < dur 0 + n * sleep := by
      have := (div_lt_iff₀ hs).mp hn
      linarith
    obtain ⟨run, hrun, hout⟩ :=
      pollLoop_true_terminates results cond dur sleep timeout hc hd n 0 (dur 0) hlt
    exact ⟨n + 1, run, hrun, hout⟩

theorem claim_C2_witness :
    ∃ fuel run,
      blockUntilComplete (fun _ => (0 : Nat)) (fun _ => true) (fun _ => (0 : ℚ)) 1 2 fuel
          = some run ∧
      run.outcome = PollOutcome.timeoutErr "Operation timed out." :=
  (claim_C2_amended (fun _ => (0 : Nat)) (fun _ => true) (fun _ => 0) 1 2).2
    (fun _ => rfl) one_pos (fun _ => le_refl 0)

/-- C3, counterexample: the claim says that with timeout 0 a poll whose
predicate is true fails immediately on the first loop iteration with no
additional retries.  In the clock model where the first invocation consumes no
measurable time, the first deadline check compares 0 > 0, which is false, so
the poller sleeps once and invokes the operation a second time before failing:
the run records 2 invocations and 1 sleep, not 1 invocation and 0 sleeps. -/
theorem claim_C3_counterexample :
    blockUntilComplete (fun _ => (0 : Nat)) (fun _ => true) (fun _ => (0 : ℚ)) 5 0 3 =
      some ⟨PollOutcome.timeoutErr "Operation timed out.", 2, 1, 5⟩ := by
  norm_num [blockUntilComplete, pollLoop]

/-- C3, amended: the timeout comparison is strict greater-than against elapsed
time measured from just before the first invocation, and the first invocation
always happens regardless of timeout.  Conjunct 1: a predicate false on the
first result succeeds immediately, for every timeout (including 0).
Conjunct 2 (strictness): when the elapsed time at a check equals the timeout
exactly, the deadline does not fire and polling continues.  Conjunct 3: with
timeout 0, a true predicate fails on the first loop iteration with no
additional retries exactly when the measured elapsed time of the first
invocation is strictly positive.  Conjunct 4: when the clock has not advanced
(elapsed exactly 0), the strict comparison passes and the poller sleeps once
and performs exactly one additional invocation before failing on the second
iteration. -/
theorem claim_C3_amended {R : Type} (results : Nat → R) (cond : R → Bool) (dur : Nat → ℚ)
    (sleep : ℚ) :
    (∀ (timeout : ℚ) (fuel : Nat), cond (results 0) = false →
        blockUntilComplete results cond dur sleep timeout (fuel + 1) =
          some ⟨PollOutcome.ok (results 0), 1, 0, dur 0⟩) ∧
    (∀ (timeout : ℚ) (fuel : Nat), cond (results 0) = true → cond (results 1) = false →
        dur 0 = timeout →
        blockUntilComplete results cond dur sleep timeout (fuel + 2) =
          some ⟨PollOutcome.ok (results 1), 2, 1, timeout + sleep + dur 1⟩) ∧
    (∀ fuel : Nat, cond (results 0) = true → 0 < dur 0 →
        blockUntilComplete results cond dur sleep 0 (fuel + 1) =
          some ⟨PollOutcome.timeoutErr "Operation timed out.", 1, 0, dur 0⟩) ∧
    (∀ fuel : Nat, cond (results 0) = true → cond (results 1) = true → 0 < sleep →
        blockUntilComplete results cond (fun _ => 0) sleep 0 (fuel + 2) =
          some ⟨PollOutcome.timeoutErr "Operation timed out.", 2, 1, sleep⟩) := by
  refine ⟨?_, ?_, ?_, ?_⟩
  · intro timeout fuel h
    rw [blockUntilComplete, pollLoop, if_pos h]
  · intro timeout fuel h0 h1 hd
    simp [blockUntilComplete, pollLoop, h0, h1, hd]
  · intro fuel h0 hdur
    rw [blockUntilComplete, pollLoop, if_neg (by simp [h0]), if_pos hdur]
  · intro fuel h0 h1 hs
    simp [blockUntilComplete, pollLoop, h0, h1, hs]

theorem claim_C3_witness :
    blockUntilComplete (fun _ => (0 : Nat)) (fun _ => true) (fun _ => (1 : ℚ)) 5 0 1 =
        some ⟨PollOutcome.timeoutErr "Operation timed out.", 1, 0, 1⟩ ∧
    blockUntilComplete (fun _ => (0 : Nat)) (fun _ => true) (fun _ => (0 : ℚ)) 5 0 2 =
        some ⟨PollOutcome.timeoutErr "Operation timed out.", 2, 1, 5⟩ :=
  ⟨(claim_C3_amended (fun _ => (0 : Nat)) (fun _ => true) (fun _ => (1 : ℚ)) 5).2.2.1 0
      rfl one_pos,
    (claim_C3_amended (fun _ => (0 : Nat)) (fun _ => true) (fun _ => (1 : ℚ)) 5).2.2.2 0
      rfl rfl (by norm_num)⟩

/-- C4: for every operation and every predicate that is false on the first
result, the poller returns that first result immediately, performing exactly
one invocation and no sleep. -/
theorem claim_C4 {R : Type} (results : Nat → R) (cond : R → Bool) (dur : Nat → ℚ)
    (sleep timeout : ℚ) (fuel : Nat) (h : cond (results 0) = false) :
    blockUntilComplete results cond dur sleep timeout (fuel + 1) =
      some ⟨PollOutcome.ok (results 0), 1, 0, dur 0⟩ := by
  rw [blockUntilComplete, pollLoop, if_pos h]

theorem claim_C4_witness :
    blockUntilComplete (fun _ => (7 : Nat)) (fun _ => false) (fun _ => (0 : ℚ)) 5 30 1 =
      some ⟨PollOutcome.ok 7, 1, 0, 0⟩ :=
  claim_C4 (fun _ => 7) (fun _ => false) (fun _ => 0) 5 30 0 rfl

/-- C5: for every timeout ≥ 0 and interval > 0, if the predicate is true on
every result, the poller terminates by failing with the timeout error once
elapsed time exceeds the timeout, and the elapsed time at the failure never
exceeds timeout + interval (overrun bounded by one sleep interval), with
operation invocations taking zero time in the clock model. -/
theorem claim_C5 {R : Type} (results : Nat → R) (cond : R → Bool) (sleep timeout : ℚ)
    (ht : 0 ≤ timeout) (hs : 0 < sleep) (hc : ∀ j, cond (results j) = true) :
    ∃ fuel run, blockUntilComplete results cond (fun _ => 0) sleep timeout fuel = some run ∧
      run.outcome = PollOutcome.timeoutErr "Operation timed out." ∧
      timeout < run.elapsed ∧ run.elapsed ≤ timeout + sleep := by
  obtain ⟨n, hn⟩ := exists_nat_gt (timeout / sleep)
  have hub : ((0 : Nat) : ℚ) * sleep ≤ timeout + sleep := by push_cast; nlinarith
  have hlt : timeout < ((0 : Nat) : ℚ) * sleep + n * sleep := by
    have := (div_lt_iff₀ hs).mp hn
    push_cast
    linarith
  obtain ⟨run, hrun, hout, h1, h2⟩ :=
    pollLoop_true_timeout_bound results cond sleep timeout hc n 0 hub hlt
  refine ⟨n + 1, run, ?_, hout, h1, h2⟩
  rw [blockUntilComplete]
  simpa using hrun

theorem claim_C5_witness :
    ∃ fuel run,
      blockUntilComplete (fun _ => (0 : Nat)) (fun _ => true) (fun _ => (0 : ℚ)) 2 5 fuel
          = some run ∧
      run.outcome = PollOutcome.timeoutErr "Operation timed out." ∧
      5 < run.elapsed ∧ run.elapsed ≤ 5 + 2 :=
  claim_C5 (fun _ => 0) (fun _ => true) 2 5 (by norm_num) (by norm_num) (fun _ => rfl)

/-- C6: the poller never returns normally while the predicate on the most
recent result is true: whenever a run returns a result normally, the predicate
evaluates to false on that returned result (and the result is one the operation
actually produced). -/
theorem claim_C6 {R : Type} (results : Nat → R) (cond : R → Bool) (dur : Nat → ℚ)
    (sleep timeout : ℚ) (fuel : Nat) (run : PollRun R) (r : R)
    (h : blockUntilComplete results cond dur sleep timeout fuel = some run)
    (hout : run.outcome = PollOutcome.ok r) :
    cond r = false ∧ ∃ j, r = results j :=
  pollLoop_ok_sound results cond dur sleep timeout fuel 0 (dur 0) run r h hout

theorem claim_C6_witness :
    false = false ∧ ∃ j : Nat, (3 : Nat) = 3 :=
  claim_C6 (fun _ => 3) (fun _ => false) (fun _ => 0) 5 30 1
    ⟨PollOutcome.ok 3, 1, 0, 0⟩ 3 rfl rfl

/-- C7: the timeout error is the only failure the poller itself raises.
Conjunct 1: any exception surfacing from a run is exactly an exception some
invocation of the operation raised, and the run stops at that invocation (no
retry, no suppression, no modification).  Conjunct 2: every poller-raised
failure carries the fixed timeout message.  Conjunct 3: an exception raised by
the first invocation propagates at once. -/
theorem claim_C7 {E R : Type} (results : Nat → Except E R) (cond : R → Bool) (dur : Nat → ℚ)
    (sleep timeout : ℚ) :
    (∀ (fuel : Nat) (run : PollRunE E R) (e : E),
        blockUntilCompleteE results cond dur sleep timeout fuel = some run →
        run.outcome = PollOutcomeE.raised e →
        ∃ j, results j = Except.error e ∧ run.invocations = j + 1) ∧
    (∀ (fuel : Nat) (run : PollRunE E R) (msg : String),
        blockUntilCompleteE results cond dur sleep timeout fuel = some run →
        run.outcome = PollOutcomeE.timeoutErr msg → msg = "Operation timed out.") ∧
    (∀ (fuel : Nat) (e : E), results 0 = Except.error e →
        blockUntilCompleteE results cond dur sleep timeout (fuel + 1) =
          some ⟨PollOutcomeE.raised e, 1, 0, dur 0⟩) := by
  refine ⟨?_, ?_, ?_⟩
  · intro fuel run e h hout
    exact pollLoopE_raised_sound results cond dur sleep timeout fuel 0 (dur 0) run e h hout
  · intro fuel run msg h hout
    exact pollLoopE_timeout_msg results cond dur sleep timeout fuel 0 (dur 0) run msg h hout
  · intro fuel e h
    rw [blockUntilCompleteE, pollLoopE, h]

theorem claim_C7_witness :
    (∃ j, (fun _ => (Except.error "boom" : Except String Nat)) j = Except.error "boom" ∧
        (⟨PollOutcomeE.raised "boom", 1, 0, 0⟩ : PollRunE String Nat).invocations = j + 1) ∧
    blockUntilCompleteE (fun _ => (Except.error "boom" : Except String Nat)) (fun _ => true)
        (fun _ => 0) 5 30 1 = some ⟨PollOutcomeE.raised "boom", 1, 0, 0⟩ :=
  ⟨(claim_C7 (fun _ => Except.error "boom") (fun _ => true) (fun _ => 0) 5 30).1 1
      ⟨PollOutcomeE.raised "boom", 1, 0, 0⟩ "boom" rfl rfl,
    (claim_C7 (fun _ => Except.error "boom") (fun _ => true) (fun _ => 0) 5 30).2.2 0
      "boom" rfl⟩

/-- C8: calling `AWSClientFactory.get` with no role ARN never performs a
role-assumption call — `__get_sts_credentials(None)` returns the all-absent
sentinel without touching STS — and the client the call returns is built from
those sentinel credentials, leaving the assume-role call count unchanged. -/
theorem claim_C8 (className moduleName region : String) (s : FactoryState)
    (c : AwsClient) (s' : FactoryState)
    (h : AWSClientFactory.get className moduleName region none s = Except.ok (c, s')) :
    getStsCredentials none s = (⟨none, none, none⟩, s) ∧
    c.creds = ⟨none, none, none⟩ ∧ s'.assumeRoleCalls = s.assumeRoleCalls := by
  refine ⟨rfl, ?_⟩
  cases hm : clientTypeToServiceName moduleName with
  | none =>
    rw [get_error_of_none className moduleName region none s hm] at h
    simp at h
  | some svc =>
    rw [get_eq_of_some className moduleName region none s svc hm] at h
    simp only [Except.ok.injEq, Prod.mk.injEq] at h
    obtain ⟨h1, h2⟩ := h
    subst h1
    subst h2
    exact ⟨rfl, rfl⟩

theorem claim_C8_witness :
    getStsCredentials none ⟨[], 0, 0⟩ = (⟨none, none, none⟩, ⟨[], 0, 0⟩) ∧
    (⟨"s3", ⟨none, none, none⟩, "eu-west-1", 0⟩ : AwsClient).creds = ⟨none, none, none⟩ ∧
    FactoryState.assumeRoleCalls
        ⟨[("S3Client_None", ⟨"s3", ⟨none, none, none⟩, "eu-west-1", 0⟩)], 0, 1⟩ =
      FactoryState.assumeRoleCalls ⟨[], 0, 0⟩ :=
  claim_C8 "S3Client" "mypy_boto3_s3.client" "eu-west-1" ⟨[], 0, 0⟩
    ⟨"s3", ⟨none, none, none⟩, "eu-west-1", 0⟩
    ⟨[("S3Client_None", ⟨"s3", ⟨none, none, none⟩, "eu-west-1", 0⟩)], 0, 1⟩ (by
      simp [AWSClientFactory.get, createAwsClient, clientTypeToServiceName, matchClientName,
        lazyGroup, clientNamePre, clientNameSep, getStsCredentials, dictGet, dictSet,
        clientKey, underscoreToHyphen])

/-- C9, counterexample: the claim says a call passing an explicit region
succeeds (with respect to region resolution) even when the ambient region is
absent.  In the code, `region: str = os.environ["AWS_REGION"]` is evaluated
when the class body executes, so with the ambient region absent the `KeyError`
fires before any call — including one with an explicit region — can be
made. -/
theorem claim_C9_counterexample :
    resolveCallRegion none (some "eu-west-1") = Except.error "KeyError: AWS_REGION" ∧
    getWithEnv none (some "eu-west-1") "S3Client" "mypy_boto3_s3.client" none ⟨[], 0, 0⟩ =
      Except.error "KeyError: AWS_REGION" :=
  ⟨rfl, rfl⟩

/-- C9, amended: the default region is read from the ambient environment at
class-definition time.  When the ambient value is present, a call uses the
explicit region if given and the ambient default otherwise; when it is absent,
the definition itself fails, so every call fails — whether or not an explicit
region is passed. -/
theorem claim_C9_amended :
    (∀ (d : String) (x : Option String) (cn mn : String) (ra : Option String)
        (s : FactoryState),
        getWithEnv (some d) x cn mn ra s = AWSClientFactory.get cn mn (x.getD d) ra s) ∧
    (∀ d r : String, resolveCallRegion (some d) (some r) = Except.ok r ∧
        resolveCallRegion (some d) none = Except.ok d) ∧
    (∀ (x : Option String) (cn mn : String) (ra : Option String) (s : FactoryState),
        getWithEnv none x cn mn ra s = Except.error "KeyError: AWS_REGION") :=
  ⟨fun _ _ _ _ _ _ => rfl, fun _ _ => ⟨rfl, rfl⟩, fun _ _ _ _ _ => rfl⟩

/-- C10: `AWSClientFactory.get` is partial in the client class's module name.
Conjunct 1: when the module name admits no decomposition
`mypy_boto3_<service>.client...` at all, the pattern cannot match and `get`
fails with the `AttributeError` from `.group` on a `None` match instead of
returning a handle.  Conjunct 2: when the pattern matches, the module name
decomposes around the captured group, `get` returns a handle, and its service
name is the captured group with underscores replaced by hyphens. -/
theorem claim_C10 (className moduleName region : String) (roleArn : Option String)
    (s : FactoryState) :
    ((¬ ∃ g rest : List Char,
        moduleName.toList = clientNamePre ++ g ++ clientNameSep ++ rest) →
      AWSClientFactory.get className moduleName region roleArn s
        = Except.error "AttributeError") ∧
    (∀ g : String, matchClientName moduleName = some g →
      (∃ rest : List Char,
          moduleName.toList = clientNamePre ++ g.toList ++ clientNameSep ++ rest) ∧
      ∃ c s', AWSClientFactory.get className moduleName region roleArn s
          = Except.ok (c, s') ∧
        c.serviceName = underscoreToHyphen g) := by
  constructor
  · intro hno
    cases hm : matchClientName moduleName with
    | none =>
      exact get_error_of_none className moduleName region roleArn s
        (by simp [clientTypeToServiceName, hm])
    | some g =>
      obtain ⟨rest, hrest⟩ := matchClientName_sound moduleName g hm
      exact absurd ⟨g.toList, rest, hrest⟩ hno
  · intro g hm
    refine ⟨matchClientName_sound moduleName g hm, ?_⟩
    have hsvc : clientTypeToServiceName moduleName = some (underscoreToHyphen g) := by
      simp [clientTypeToServiceName, hm]
    exact ⟨_, _, get_eq_of_some className moduleName region roleArn s _ hsvc, rfl⟩

theorem claim_C10_witness :
    AWSClientFactory.get "Obj" "builtins" "eu-west-1" none ⟨[], 0, 0⟩
        = Except.error "AttributeError" ∧
    ((∃ rest : List Char, ("mypy_boto3_sso_admin.client").toList
        = clientNamePre ++ ("sso_admin" : String).toList ++ clientNameSep ++ rest) ∧
      ∃ c s', AWSClientFactory.get "SSOAdminClient" "mypy_boto3_sso_admin.client" "eu-west-1"
          none ⟨[], 0, 0⟩ = Except.ok (c, s') ∧
        c.serviceName = underscoreToHyphen "sso_admin") :=
  ⟨(claim_C10 "Obj" "builtins" "eu-west-1" none ⟨[], 0, 0⟩).1 (by
      rintro ⟨g, rest, hh⟩
      have hl := congrArg List.length hh
      rw [show ("builtins".toList).length = 8 from rfl] at hl
      rw [List.length_append, List.length_append, List.length_append] at hl
      rw [show clientNamePre.length = 11 from rfl] at hl
      rw [show clientNameSep.length = 7 from rfl] at hl
      omega),
    (claim_C10 "SSOAdminClient" "mypy_boto3_sso_admin.client" "eu-west-1" none ⟨[], 0, 0⟩).2
      "sso_admin" (by decide)⟩
